import Mathlib

/-
Shallow embedding of the raffle reservation / reconciliation engine of this
repository (src/app.js, which concatenates two near-identical server variants,
and src/unnamed/part_000, a third variant).

The persistent state is the `rifas` table: one row per raffle number with a
status ('DISPONIVEL' / 'RESERVADO' / 'PAGO') and buyer / order / payment
metadata.  Every mutating route is a conditional SQL UPDATE; each is embedded
as a per-row function mapped over the table.  Timestamps are modelled as
natural numbers (milliseconds, the unit of Date.now()); the SQL condition
reservado_em <= NOW() - INTERVAL '1 hour' is rendered as
reservado_em + HOUR_MS <= now, its meaning on the (unbounded) time axis.
-/

deriving instance DecidableEq for Except

namespace Rifas

/-- Values of the `status` column: 'DISPONIVEL', 'RESERVADO', 'PAGO'. -/
inductive Status
  | DISPONIVEL
  | RESERVADO
  | PAGO
deriving DecidableEq

/-- One row of the `rifas` table (schema created in initializeDatabase). -/
structure Rifa where
  numero : Nat
  status : Status
  comprador_nome : Option String
  comprador_telefone : Option String
  comprador_email : Option String
  comprador_cpf : Option String
  external_reference : Option String
  payment_id : Option Nat
  reservado_em : Option Nat
deriving DecidableEq

/-- The `rifas` table, as the list of its rows. -/
abbrev Store := List Rifa

/-- Unit price of a raffle number (const VALOR_UNITARIO_RIFA = 3.00, in whole reais). -/
def VALOR_UNITARIO_RIFA : Nat := 3

/-- One hour in milliseconds: the reservation timeout (INTERVAL '1 hour'). -/
def HOUR_MS : Nat := 3600000

/-- Fixed payer e-mail used by the first variant of /reservar. -/
def EMAIL_FIXO_PAGAMENTO : String := "freoliutilidades@gmail.com"

/-- popularNumerosIniciais: inserts rows (i, 'DISPONIVEL') for i = 1..100,
all other columns NULL. -/
def popularNumerosIniciais : Store :=
  (List.range 100).map (fun i =>
    { numero := i + 1, status := Status.DISPONIVEL, comprador_nome := none,
      comprador_telefone := none, comprador_email := none, comprador_cpf := none,
      external_reference := none, payment_id := none, reservado_em := none })

/-- Order-reference generation in /reservar: the template literal
ORDEM-(Date.now()), i.e. the prefix "ORDEM-" followed by the decimal rendering
of the current millisecond timestamp. -/
def genExternalReference (nowMs : Nat) : String :=
  "ORDEM-" ++ Nat.repr nowMs

/-- Failure outcomes of POST /reservar: HTTP 400 (missing data / empty
selection), HTTP 409 (some numbers unavailable, carrying each unavailable
numero with its current status), and HTTP 500 when paymentClient.create
throws (the catch block rolls the transaction back). -/
inductive ReservarErr
  | validation
  | conflict (numeros : List (Nat × Status))
  | paymentFailure
deriving DecidableEq

/-- Success payload of POST /reservar: the committed table plus the fields of
the JSON response that the later routes consume. -/
structure ReservarOk where
  store : Store
  external_reference : String
  payment_id : Nat
  transaction_amount : Nat
deriving DecidableEq

/-- The per-row effect of the UPDATE in /reservar, executed once per element
of numerosRifa: WHERE numero = n SET status = 'RESERVADO' and all metadata. -/
def reservarRow (numerosRifa : List Nat) (nome telefone email cpf ref : String)
    (pid : Nat) (nowMs : Nat) (u : Rifa) : Rifa :=
  if u.numero ∈ numerosRifa then
    { u with status := Status.RESERVADO, comprador_nome := some nome,
             comprador_telefone := some telefone, comprador_email := some email,
             comprador_cpf := some cpf, external_reference := some ref,
             payment_id := some pid, reservado_em := some nowMs }
  else u

/-- The rows found unavailable by /reservar: SELECT numero, status FROM rifas
WHERE numero IN (numerosRifa) FOR UPDATE, then filter (status != 'DISPONIVEL'). -/
def indisponiveisDe (s : Store) (numerosRifa : List Nat) : List Rifa :=
  (s.filter (fun u => decide (u.numero ∈ numerosRifa))).filter
    (fun u => decide (u.status ≠ Status.DISPONIVEL))

/-- POST /reservar.  Inputs: the selected numbers (after parseInt), the buyer
fields (cpf taken already digit-cleaned), whether paymentClient.create
succeeds, the payment id it returns on success, and the clock reading used
both by Date.now() for external_reference and by new Date() for reservado_em.
Validation rejects only a missing/empty selection or falsy buyer fields; then
the locked rows are checked for availability; then the payment is created and
the per-number UPDATEs committed. -/
def reservar (s : Store) (numeros : List Nat) (nome telefone cpf : String)
    (providerOk : Bool) (pid : Nat) (nowMs : Nat) : Except ReservarErr ReservarOk :=
  if numeros = [] ∨ nome = "" ∨ telefone = "" ∨ cpf = "" then
    Except.error ReservarErr.validation
  else
    let external_reference := genExternalReference nowMs
    let transaction_amount := VALOR_UNITARIO_RIFA * numeros.length
    let indisponiveis := indisponiveisDe s numeros
    if indisponiveis ≠ [] then
      Except.error (ReservarErr.conflict (indisponiveis.map (fun u => (u.numero, u.status))))
    else if providerOk = false then
      Except.error ReservarErr.paymentFailure
    else
      Except.ok
        { store := s.map (reservarRow numeros nome telefone EMAIL_FIXO_PAGAMENTO cpf
            external_reference pid nowMs),
          external_reference := external_reference,
          payment_id := pid,
          transaction_amount := transaction_amount }

/-- The table as left by POST /reservar: the committed store on success, the
rolled-back (unchanged) store on any failure. -/
def reservarStore (s : Store) (numeros : List Nat) (nome telefone cpf : String)
    (providerOk : Bool) (pid : Nat) (nowMs : Nat) : Store :=
  match reservar s numeros nome telefone cpf providerOk pid nowMs with
  | Except.ok r => r.store
  | Except.error _ => s

/-- Whether POST /reservar reaches the paymentClient.create call: exactly the
executions that pass validation and find every selected row available. -/
def reservarPaymentAttempted (s : Store) (numeros : List Nat)
    (nome telefone cpf : String) : Bool :=
  if numeros = [] ∨ nome = "" ∨ telefone = "" ∨ cpf = "" then false
  else decide (indisponiveisDe s numeros = [])

/-- Row effect of UPDATE rifas SET status = 'PAGO', reservado_em = NULL
WHERE external_reference = ref AND status = 'RESERVADO' (webhook approved
branch of the external_reference variant, and GET /admin/approve). -/
def markPaidByRefRow (ref : String) (u : Rifa) : Rifa :=
  if u.external_reference = some ref ∧ u.status = Status.RESERVADO then
    { u with status := Status.PAGO, reservado_em := none }
  else u

/-- The approved-by-reference UPDATE applied to the whole table. -/
def markPaidByRef (ref : String) (s : Store) : Store :=
  s.map (markPaidByRefRow ref)

/-- Number of rows the approved-by-reference UPDATE affects (result.rowCount). -/
def markPaidByRefRowCount (ref : String) (s : Store) : Nat :=
  s.countP (fun u => decide (u.external_reference = some ref ∧ u.status = Status.RESERVADO))

/-- A fully released row: status 'DISPONIVEL' and every metadata column NULL. -/
def clearRow (u : Rifa) : Rifa :=
  { u with status := Status.DISPONIVEL, comprador_nome := none, comprador_telefone := none,
           comprador_email := none, comprador_cpf := none, external_reference := none,
           payment_id := none, reservado_em := none }

/-- Row effect of the rejected/cancelled/refunded branch keyed by
external_reference (webhook of the first variant, and GET /admin/reject):
release the row, conditioned on status = 'RESERVADO'. -/
def releaseByRefRow (ref : String) (u : Rifa) : Rifa :=
  if u.external_reference = some ref ∧ u.status = Status.RESERVADO then clearRow u else u

/-- The rejected-by-reference UPDATE applied to the whole table. -/
def releaseByRef (ref : String) (s : Store) : Store :=
  s.map (releaseByRefRow ref)

/-- Row effect of the approved branch of the payment_id webhook variant:
UPDATE rifas SET status = 'PAGO', reservado_em = NULL WHERE payment_id = pid.
Note: this variant has no status guard. -/
def markPaidByPidRow (pid : Nat) (u : Rifa) : Rifa :=
  if u.payment_id = some pid then
    { u with status := Status.PAGO, reservado_em := none }
  else u

/-- The approved-by-payment_id UPDATE applied to the whole table. -/
def markPaidByPid (pid : Nat) (s : Store) : Store :=
  s.map (markPaidByPidRow pid)

/-- Row effect of the rejected branch of the payment_id webhook variant:
release, conditioned on payment_id = pid AND status = 'RESERVADO'. -/
def releaseByPidRow (pid : Nat) (u : Rifa) : Rifa :=
  if u.payment_id = some pid ∧ u.status = Status.RESERVADO then clearRow u else u

/-- The rejected-by-payment_id UPDATE applied to the whole table. -/
def releaseByPid (pid : Nat) (s : Store) : Store :=
  s.map (releaseByPidRow pid)

/-- Dispatch of POST /notificar in the external_reference variant, given the
status string returned by paymentClient.get: approved marks the order paid,
rejected/cancelled/refunded releases it, anything else changes nothing. -/
def notificarByRef (mpStatus ref : String) (s : Store) : Store :=
  if mpStatus = "approved" then markPaidByRef ref s
  else if mpStatus = "rejected" ∨ mpStatus = "cancelled" ∨ mpStatus = "refunded" then
    releaseByRef ref s
  else s

/-- Dispatch of POST /notificar in the payment_id variant. -/
def notificarByPid (mpStatus : String) (pid : Nat) (s : Store) : Store :=
  if mpStatus = "approved" then markPaidByPid pid s
  else if mpStatus = "rejected" ∨ mpStatus = "cancelled" ∨ mpStatus = "refunded" then
    releaseByPid pid s
  else s

/-- The WHERE clause of limparReservasExpiradas: status = 'RESERVADO' AND
reservado_em IS NOT NULL AND reservado_em <= NOW() - INTERVAL '1 hour'. -/
def reservaExpirada (nowMs : Nat) (u : Rifa) : Bool :=
  decide (u.status = Status.RESERVADO) &&
    (match u.reservado_em with
     | some t => decide (t + HOUR_MS ≤ nowMs)
     | none => false)

/-- Row effect of the limparReservasExpiradas variant that clears every
metadata column (src/app.js line 334, and src/unnamed/part_000 line 396). -/
def limparReservasExpiradasRow (nowMs : Nat) (u : Rifa) : Rifa :=
  if reservaExpirada nowMs u then clearRow u else u

/-- The full-clear janitor sweep applied to the whole table. -/
def limparReservasExpiradas (nowMs : Nat) (s : Store) : Store :=
  s.map (limparReservasExpiradasRow nowMs)

/-- Row effect of the limparReservasExpiradas variant at src/app.js line 713,
which clears the buyer columns and reservado_em but keeps external_reference
and payment_id. -/
def limparKeepRefRow (nowMs : Nat) (u : Rifa) : Rifa :=
  if reservaExpirada nowMs u then
    { u with status := Status.DISPONIVEL, comprador_nome := none,
             comprador_telefone := none, comprador_email := none,
             comprador_cpf := none, reservado_em := none }
  else u

/-- The reference-keeping janitor sweep applied to the whole table. -/
def limparReservasExpiradasKeepRef (nowMs : Nat) (s : Store) : Store :=
  s.map (limparKeepRefRow nowMs)

/-- Failure outcomes of GET /minhas-rifas: HTTP 400 for an empty telefone
parameter, HTTP 404 when the query returns no row. -/
inductive MinhasRifasErr
  | badRequest
  | notFound
deriving DecidableEq

/-- GET /minhas-rifas: SELECT numero, status FROM rifas WHERE
comprador_telefone = telefone AND status IN ('PAGO', 'RESERVADO')
ORDER BY numero; 404 when the result set is empty, else the rows. -/
def minhasRifas (telefone : String) (s : Store) :
    Except MinhasRifasErr (List (Nat × Status)) :=
  if telefone = "" then Except.error MinhasRifasErr.badRequest
  else
    let rows :=
      ((s.filter (fun u => decide (u.comprador_telefone = some telefone ∧
          (u.status = Status.PAGO ∨ u.status = Status.RESERVADO)))).map
        (fun u => (u.numero, u.status))).mergeSort (fun a b => decide (a.1 ≤ b.1))
    if rows = [] then Except.error MinhasRifasErr.notFound else Except.ok rows

/-- The mutating operations of the system, over all three source variants:
reservation, the two webhook correlation variants, the admin approve/reject
routes, and the two janitor variants. -/
inductive Op
  | reservarOp (numeros : List Nat) (nome telefone cpf : String)
      (providerOk : Bool) (pid : Nat) (nowMs : Nat)
  | notificarAprovadoRef (ref : String)
  | notificarRecusadoRef (ref : String)
  | notificarAprovadoPid (pid : Nat)
  | notificarRecusadoPid (pid : Nat)
  | adminApprove (ref : String)
  | adminReject (ref : String)
  | sweepLimpaTudo (nowMs : Nat)
  | sweepKeepRef (nowMs : Nat)
deriving DecidableEq

/-- State effect of each operation on the `rifas` table. -/
def applyOp : Op → Store → Store
  | Op.reservarOp ns nome tel cpf ok pid now, s => reservarStore s ns nome tel cpf ok pid now
  | Op.notificarAprovadoRef ref, s => markPaidByRef ref s
  | Op.notificarRecusadoRef ref, s => releaseByRef ref s
  | Op.notificarAprovadoPid pid, s => markPaidByPid pid s
  | Op.notificarRecusadoPid pid, s => releaseByPid pid s
  | Op.adminApprove ref, s => markPaidByRef ref s
  | Op.adminReject ref, s => releaseByRef ref s
  | Op.sweepLimpaTudo now, s => limparReservasExpiradas now s
  | Op.sweepKeepRef now, s => limparReservasExpiradasKeepRef now s

/-- Recognizes the unguarded approved-by-payment_id webhook operation. -/
def Op.viaPaymentIdApproval : Op → Bool
  | Op.notificarAprovadoPid _ => true
  | _ => false

/-- The status transition graph claimed by the spec:
AVAILABLE to RESERVED, RESERVED to PAID or back to AVAILABLE, PAID terminal. -/
def specStep (a b : Status) : Prop :=
  a = b ∨ (a = Status.DISPONIVEL ∧ b = Status.RESERVADO) ∨
    (a = Status.RESERVADO ∧ (b = Status.PAGO ∨ b = Status.DISPONIVEL))

/-- specStep, extended with the one extra edge the code admits: a direct
AVAILABLE-to-PAID jump, possible only for the unguarded approved-by-payment_id
webhook operation. -/
def allowedStepExt (op : Op) (a b : Status) : Prop :=
  specStep a b ∨
    (a = Status.DISPONIVEL ∧ b = Status.PAGO ∧ Op.viaPaymentIdApproval op = true)

/-- The row with a given numero, if any. -/
def rifaOf (n : Nat) (s : Store) : Option Rifa :=
  s.find? (fun u => decide (u.numero = n))

/-- The status of the row with a given numero. -/
def statusOf (n : Nat) (s : Store) : Option Status :=
  (rifaOf n s).map (fun u => u.status)

/-- The external_reference column of the row with a given numero. -/
def refOf (n : Nat) (s : Store) : Option (Option String) :=
  (rifaOf n s).map (fun u => u.external_reference)

/-- The payment_id column of the row with a given numero. -/
def pidOf (n : Nat) (s : Store) : Option (Option Nat) :=
  (rifaOf n s).map (fun u => u.payment_id)

/-- The external_reference of a successful reservation response. -/
def okRef : Except ReservarErr ReservarOk → Option String
  | Except.ok r => some r.external_reference
  | Except.error _ => none

/-- The transaction_amount of a successful reservation response. -/
def okAmount : Except ReservarErr ReservarOk → Option Nat
  | Except.ok r => some r.transaction_amount
  | Except.error _ => none

/-- A reservation outcome with the transaction_amount field erased: the
committed table, the order reference and the payment id. -/
def reservarSemValor (s : Store) (numeros : List Nat) (nome telefone cpf : String)
    (providerOk : Bool) (pid : Nat) (nowMs : Nat) :
    Except ReservarErr (Store × String × Nat) :=
  match reservar s numeros nome telefone cpf providerOk pid nowMs with
  | Except.ok r => Except.ok (r.store, r.external_reference, r.payment_id)
  | Except.error e => Except.error e

/-- A concrete run: the fresh table after reserving number 1 at time 0 with
payment id 42. -/
def runS1 : Store :=
  reservarStore popularNumerosIniciais [1] "Alice" "11999990000" "26188102092" true 42 0

/-- The same run after the reference-keeping janitor fires one hour later. -/
def runS2 : Store :=
  limparReservasExpiradasKeepRef HOUR_MS runS1

/-- The same run after an approved webhook for payment id 42 then arrives. -/
def runS3 : Store :=
  markPaidByPid 42 runS2

/-- A PAID row, for concrete instantiations. -/
def paidRifa : Rifa :=
  { numero := 7, status := Status.PAGO, comprador_nome := some "Ana",
    comprador_telefone := some "11988887777", comprador_email := some EMAIL_FIXO_PAGAMENTO,
    comprador_cpf := some "26188102092", external_reference := some "ORDEM-99",
    payment_id := some 5, reservado_em := none }

/-- A one-row table holding that PAID unit. -/
def paidStore : Store := [paidRifa]

/-- Approved-by-reference row update applied twice is the same as once: a row
it marks PAGO no longer satisfies the status guard. -/
theorem markPaidByRefRow_idem (ref : String) (u : Rifa) :
    markPaidByRefRow ref (markPaidByRefRow ref u) = markPaidByRefRow ref u := by
  by_cases h : u.external_reference = some ref ∧ u.status = Status.RESERVADO <;>
    simp [markPaidByRefRow, h]

/-- C2: for every well-formed reservation request in which at least one
requested unit's current status is not DISPONIVEL, /reservar fails with the
409 conflict error whose payload lists exactly the unavailable numbers with
their current statuses, and the table is left unchanged. -/
theorem claim2_reservar_conflict (s : Store) (numeros : List Nat)
    (nome telefone cpf : String) (providerOk : Bool) (pid nowMs : Nat)
    (hns : numeros ≠ []) (hnome : nome ≠ "") (htel : telefone ≠ "") (hcpf : cpf ≠ "")
    (hbad : ∃ u ∈ s, u.numero ∈ numeros ∧ u.status ≠ Status.DISPONIVEL) :
    (∃ l, reservar s numeros nome telefone cpf providerOk pid nowMs =
        Except.error (ReservarErr.conflict l) ∧
      ∀ n st, (n, st) ∈ l ↔ ∃ u ∈ s, u.numero = n ∧ u.status = st ∧
        n ∈ numeros ∧ st ≠ Status.DISPONIVEL) ∧
    reservarStore s numeros nome telefone cpf providerOk pid nowMs = s := by
  have hval : ¬(numeros = [] ∨ nome = "" ∨ telefone = "" ∨ cpf = "") := by
    simp [hns, hnome, htel, hcpf]
  have hne : indisponiveisDe s numeros ≠ [] := by
    obtain ⟨u, hu, hmem, hst⟩ := hbad
    exact List.ne_nil_of_mem
      (by simp only [indisponiveisDe, List.mem_filter, decide_eq_true_eq]
          exact ⟨⟨hu, hmem⟩, hst⟩)
  have heq : reservar s numeros nome telefone cpf providerOk pid nowMs =
      Except.error (ReservarErr.conflict
        ((indisponiveisDe s numeros).map (fun u => (u.numero, u.status)))) := by
    rw [reservar, if_neg hval]
    simp only [if_pos hne]
  refine ⟨⟨_, heq, ?_⟩, ?_⟩
  · intro n st
    simp only [List.mem_map, indisponiveisDe, List.mem_filter, decide_eq_true_eq,
      Prod.mk.injEq]
    constructor
    · rintro ⟨u, ⟨⟨hu, hmem⟩, hst⟩, hn, hstp⟩
      exact ⟨u, hu, hn, hstp, hn ▸ hmem, hstp ▸ hst⟩
    · rintro ⟨u, hu, rfl, rfl, hmem, hst⟩
      exact ⟨u, ⟨⟨hu, hmem⟩, hst⟩, rfl, rfl⟩
  · rw [reservarStore, heq]

/-- C3: when every unit of an order is RESERVED, one approved reconciliation
marks them all PAGO with reservado_em cleared; applying it again is the
identity and affects zero rows. -/
theorem claim3_markPaid_idempotent (s : Store) (ref : String)
    (hAll : ∀ u ∈ s, u.external_reference = some ref → u.status = Status.RESERVADO) :
    (∀ u ∈ markPaidByRef ref s, u.external_reference = some ref →
        u.status = Status.PAGO ∧ u.reservado_em = none) ∧
    markPaidByRef ref (markPaidByRef ref s) = markPaidByRef ref s ∧
    markPaidByRefRowCount ref (markPaidByRef ref s) = 0 := by
  refine ⟨?_, ?_, ?_⟩
  · intro u hu href
    obtain ⟨v, hv, rfl⟩ := List.mem_map.1 hu
    by_cases h : v.external_reference = some ref ∧ v.status = Status.RESERVADO
    · simp [markPaidByRefRow, h]
    · rw [markPaidByRefRow, if_neg h] at href ⊢
      exact absurd ⟨href, hAll v hv href⟩ h
  · rw [markPaidByRef, markPaidByRef, List.map_map]
    exact List.map_congr_left (fun u _ => markPaidByRefRow_idem ref u)
  · rw [markPaidByRef, markPaidByRefRowCount, List.countP_map, List.countP_eq_zero]
    intro u _
    by_cases h : u.external_reference = some ref ∧ u.status = Status.RESERVADO <;>
      simp [Function.comp, markPaidByRefRow, h]

/-- C4: a rejected/cancelled/refunded notification never moves a PAID order:
when every unit carrying the reference (or the payment id, in the payment_id
variant) is PAGO, the release is a no-op because it is guarded by
status = 'RESERVADO'. -/
theorem claim4_rejection_keeps_paid (s : Store) (ref : String) (pid : Nat)
    (mpStatus : String)
    (hmp : mpStatus = "rejected" ∨ mpStatus = "cancelled" ∨ mpStatus = "refunded") :
    ((∀ u ∈ s, u.external_reference = some ref → u.status = Status.PAGO) →
      notificarByRef mpStatus ref s = s) ∧
    ((∀ u ∈ s, u.payment_id = some pid → u.status = Status.PAGO) →
      notificarByPid mpStatus pid s = s) := by
  have hap : mpStatus ≠ "approved" := by rcases hmp with rfl | rfl | rfl <;> decide
  constructor
  · intro hPaid
    rw [notificarByRef, if_neg hap, if_pos hmp, releaseByRef]
    have hid : ∀ u ∈ s, releaseByRefRow ref u = id u := by
      intro u hu
      have hneg : ¬(u.external_reference = some ref ∧ u.status = Status.RESERVADO) := by
        rintro ⟨h1, h2⟩
        rw [hPaid u hu h1] at h2
        exact absurd h2 (by decide)
      rw [releaseByRefRow, if_neg hneg]
      rfl
    rw [List.map_congr_left hid, List.map_id]
  · intro hPaid
    rw [notificarByPid, if_neg hap, if_pos hmp, releaseByPid]
    have hid : ∀ u ∈ s, releaseByPidRow pid u = id u := by
      intro u hu
      have hneg : ¬(u.payment_id = some pid ∧ u.status = Status.RESERVADO) := by
        rintro ⟨h1, h2⟩
        rw [hPaid u hu h1] at h2
        exact absurd h2 (by decide)
      rw [releaseByPidRow, if_neg hneg]
      rfl
    rw [List.map_congr_left hid, List.map_id]

/-- The Boolean WHERE clause of the janitor sweeps, read as a proposition:
the row is RESERVADO and was reserved at or before one hour ago. -/
theorem reservaExpirada_iff (nowMs : Nat) (u : Rifa) :
    reservaExpirada nowMs u = true ↔
      (u.status = Status.RESERVADO ∧
        ∃ t, u.reservado_em = some t ∧ t + HOUR_MS ≤ nowMs) := by
  rw [reservaExpirada]
  cases h : u.reservado_em <;> simp [h]

/-- C6: each janitor variant releases exactly the expired reservations: a row
that is RESERVADO with reservado_em at or before nowMs minus one hour becomes
DISPONIVEL, and every other row (younger reservation, or any non-RESERVADO
status) is left completely unchanged, by both sweep variants. -/
theorem claim6_sweep_exactly_expired (nowMs : Nat) (s : Store) (i : Nat)
    (h : i < s.length) (hA : i < (limparReservasExpiradas nowMs s).length)
    (hB : i < (limparReservasExpiradasKeepRef nowMs s).length) :
    (((s.get ⟨i, h⟩).status = Status.RESERVADO ∧
        ∃ t, (s.get ⟨i, h⟩).reservado_em = some t ∧ t + HOUR_MS ≤ nowMs) →
      ((limparReservasExpiradas nowMs s).get ⟨i, hA⟩).status = Status.DISPONIVEL ∧
      ((limparReservasExpiradasKeepRef nowMs s).get ⟨i, hB⟩).status = Status.DISPONIVEL) ∧
    (¬((s.get ⟨i, h⟩).status = Status.RESERVADO ∧
        ∃ t, (s.get ⟨i, h⟩).reservado_em = some t ∧ t + HOUR_MS ≤ nowMs) →
      (limparReservasExpiradas nowMs s).get ⟨i, hA⟩ = s.get ⟨i, h⟩ ∧
      (limparReservasExpiradasKeepRef nowMs s).get ⟨i, hB⟩ = s.get ⟨i, h⟩) := by
  have eA : (limparReservasExpiradas nowMs s).get ⟨i, hA⟩ =
      limparReservasExpiradasRow nowMs (s.get ⟨i, h⟩) := by
    simp [limparReservasExpiradas, List.get_eq_getElem, List.getElem_map]
  have eB : (limparReservasExpiradasKeepRef nowMs s).get ⟨i, hB⟩ =
      limparKeepRefRow nowMs (s.get ⟨i, h⟩) := by
    simp [limparReservasExpiradasKeepRef, List.get_eq_getElem, List.getElem_map]
  rw [eA, eB]
  constructor
  · intro hexp
    have hb : reservaExpirada nowMs (s.get ⟨i, h⟩) = true :=
      (reservaExpirada_iff nowMs _).2 hexp
    rw [limparReservasExpiradasRow, if_pos hb, limparKeepRefRow, if_pos hb]
    exact ⟨rfl, rfl⟩
  · intro hexp
    have hb : ¬reservaExpirada nowMs (s.get ⟨i, h⟩) = true :=
      fun hc => hexp ((reservaExpirada_iff nowMs _).1 hc)
    rw [limparReservasExpiradasRow, if_neg hb, limparKeepRefRow, if_neg hb]
    exact ⟨rfl, rfl⟩

/-- C5 (amended): a row released by the full-clear janitor has every metadata
column nulled; a row released by the reference-keeping variant keeps its
external_reference and payment_id columns and only loses the buyer columns
and reservado_em. -/
theorem claim5_sweep_release_fields (nowMs : Nat) (s : Store) (i : Nat)
    (h : i < s.length) (hA : i < (limparReservasExpiradas nowMs s).length)
    (hB : i < (limparReservasExpiradasKeepRef nowMs s).length)
    (hexp : (s.get ⟨i, h⟩).status = Status.RESERVADO ∧
      ∃ t, (s.get ⟨i, h⟩).reservado_em = some t ∧ t + HOUR_MS ≤ nowMs) :
    (limparReservasExpiradas nowMs s).get ⟨i, hA⟩ = clearRow (s.get ⟨i, h⟩) ∧
    (limparReservasExpiradasKeepRef nowMs s).get ⟨i, hB⟩ =
      { s.get ⟨i, h⟩ with
        status := Status.DISPONIVEL
        comprador_nome := none
        comprador_telefone := none
        comprador_email := none
        comprador_cpf := none
        reservado_em := none } := by
  have hb : reservaExpirada nowMs (s.get ⟨i, h⟩) = true :=
    (reservaExpirada_iff nowMs _).2 hexp
  have eA : (limparReservasExpiradas nowMs s).get ⟨i, hA⟩ =
      limparReservasExpiradasRow nowMs (s.get ⟨i, h⟩) := by
    simp [limparReservasExpiradas, List.get_eq_getElem, List.getElem_map]
  have eB : (limparReservasExpiradasKeepRef nowMs s).get ⟨i, hB⟩ =
      limparKeepRefRow nowMs (s.get ⟨i, h⟩) := by
    simp [limparReservasExpiradasKeepRef, List.get_eq_getElem, List.getElem_map]
  rw [eA, eB, limparReservasExpiradasRow, if_pos hb, limparKeepRefRow, if_pos hb]
  exact ⟨rfl, rfl⟩

/-- C5 (counterexample): after reserving number 1 at time 0 and letting the
reference-keeping janitor fire one hour later, the released row is DISPONIVEL
yet still carries external_reference ORDEM-0 and payment_id 42, so the sweep
does not clear the order reference and payment handle. -/
theorem claim5_keepRef_counterexample :
    statusOf 1 runS2 = some Status.DISPONIVEL ∧
    refOf 1 runS2 = some (some "ORDEM-0") ∧
    pidOf 1 runS2 = some (some 42) := by
  refine ⟨by decide, by decide, by decide⟩

/-- The approved-by-reference row update follows the spec transition graph. -/
theorem markPaidByRefRow_step (ref : String) (u : Rifa) :
    specStep u.status (markPaidByRefRow ref u).status := by
  by_cases h : u.external_reference = some ref ∧ u.status = Status.RESERVADO
  · rw [markPaidByRefRow, if_pos h]
    exact Or.inr (Or.inr ⟨h.2, Or.inl rfl⟩)
  · rw [markPaidByRefRow, if_neg h]
    exact Or.inl rfl

/-- The rejected-by-reference row update follows the spec transition graph. -/
theorem releaseByRefRow_step (ref : String) (u : Rifa) :
    specStep u.status (releaseByRefRow ref u).status := by
  by_cases h : u.external_reference = some ref ∧ u.status = Status.RESERVADO
  · rw [releaseByRefRow, if_pos h]
    exact Or.inr (Or.inr ⟨h.2, Or.inr rfl⟩)
  · rw [releaseByRefRow, if_neg h]
    exact Or.inl rfl

/-- The rejected-by-payment_id row update follows the spec transition graph. -/
theorem releaseByPidRow_step (pid : Nat) (u : Rifa) :
    specStep u.status (releaseByPidRow pid u).status := by
  by_cases h : u.payment_id = some pid ∧ u.status = Status.RESERVADO
  · rw [releaseByPidRow, if_pos h]
    exact Or.inr (Or.inr ⟨h.2, Or.inr rfl⟩)
  · rw [releaseByPidRow, if_neg h]
    exact Or.inl rfl

/-- The full-clear janitor row update follows the spec transition graph. -/
theorem limparRow_step (nowMs : Nat) (u : Rifa) :
    specStep u.status (limparReservasExpiradasRow nowMs u).status := by
  by_cases h : reservaExpirada nowMs u = true
  · rw [limparReservasExpiradasRow, if_pos h]
    exact Or.inr (Or.inr ⟨((reservaExpirada_iff nowMs u).1 h).1, Or.inr rfl⟩)
  · rw [limparReservasExpiradasRow, if_neg h]
    exact Or.inl rfl

/-- The reference-keeping janitor row update follows the spec transition graph. -/
theorem limparKeepRefRow_step (nowMs : Nat) (u : Rifa) :
    specStep u.status (limparKeepRefRow nowMs u).status := by
  by_cases h : reservaExpirada nowMs u = true
  · rw [limparKeepRefRow, if_pos h]
    exact Or.inr (Or.inr ⟨((reservaExpirada_iff nowMs u).1 h).1, Or.inr rfl⟩)
  · rw [limparKeepRefRow, if_neg h]
    exact Or.inl rfl

/-- The unguarded approved-by-payment_id row update either follows the graph
or jumps a DISPONIVEL row straight to PAGO. -/
theorem markPaidByPidRow_step (pid : Nat) (u : Rifa) :
    specStep u.status (markPaidByPidRow pid u).status ∨
      (u.status = Status.DISPONIVEL ∧ (markPaidByPidRow pid u).status = Status.PAGO) := by
  by_cases h : u.payment_id = some pid
  · rw [markPaidByPidRow, if_pos h]
    cases hs : u.status
    · exact Or.inr ⟨rfl, rfl⟩
    · exact Or.inl (Or.inr (Or.inr ⟨rfl, Or.inl rfl⟩))
    · exact Or.inl (Or.inl rfl)
  · rw [markPaidByPidRow, if_neg h]
    exact Or.inl (Or.inl rfl)

/-- The table left by /reservar is either the rolled-back table, or (all
selected rows having been checked DISPONIVEL) the table with the reservation
row update applied. -/
theorem reservarStore_cases (s : Store) (ns : List Nat) (nome tel cpf : String)
    (ok : Bool) (pid nowMs : Nat) :
    reservarStore s ns nome tel cpf ok pid nowMs = s ∨
    ((∀ u ∈ s, u.numero ∈ ns → u.status = Status.DISPONIVEL) ∧
      reservarStore s ns nome tel cpf ok pid nowMs =
        s.map (reservarRow ns nome tel EMAIL_FIXO_PAGAMENTO cpf
          (genExternalReference nowMs) pid nowMs)) := by
  by_cases hval : ns = [] ∨ nome = "" ∨ tel = "" ∨ cpf = ""
  · left
    rw [reservarStore, reservar, if_pos hval]
  · by_cases hind : indisponiveisDe s ns ≠ []
    · left
      rw [reservarStore, reservar, if_neg hval]
      simp only [if_pos hind]
    · have hguard : ∀ u ∈ s, u.numero ∈ ns → u.status = Status.DISPONIVEL := by
        intro u hu hm
        by_contra hst
        have hmem : u ∈ indisponiveisDe s ns := by
          simp only [indisponiveisDe, List.mem_filter, decide_eq_true_eq]
          exact ⟨⟨hu, hm⟩, hst⟩
        rw [not_not.1 hind] at hmem
        exact absurd hmem (List.not_mem_nil u)
      cases hok : ok
      · left
        rw [reservarStore, reservar, if_neg hval]
        simp only [if_neg hind]
        simp
      · right
        refine ⟨hguard, ?_⟩
        rw [reservarStore, reservar, if_neg hval]
        simp only [if_neg hind]
        simp

/-- Extracting PAID-terminality from the extended step relation. -/
theorem allowedStepExt_paid {op : Op} {a b : Status} (hstep : allowedStepExt op a b)
    (ha : a = Status.PAGO) : b = Status.PAGO := by
  subst ha
  rcases hstep with (hab | ⟨h1, _⟩ | ⟨h1, _⟩) | ⟨h1, _, _⟩
  · exact hab.symm
  · cases h1
  · cases h1
  · cases h1

/-- C1 (amended): every operation of the system moves each row's status along
the spec graph AVAILABLE to RESERVED to (PAID or AVAILABLE), except that the
approved branch of the payment_id webhook variant, having no status guard,
may move a row directly from DISPONIVEL to PAGO; PAGO is never left by any
operation. -/
theorem claim1_transition_graph (op : Op) (s : Store) (i : Nat) (ua ub : Rifa)
    (hua : s[i]? = some ua) (hub : (applyOp op s)[i]? = some ub) :
    allowedStepExt op ua.status ub.status ∧
    (ua.status = Status.PAGO → ub.status = Status.PAGO) := by
  have hrow : ∀ f : Rifa → Rifa, (s.map f)[i]? = some ub → ub = f ua := by
    intro f hf
    rw [List.getElem?_map, hua] at hf
    simpa using hf.symm
  have key : allowedStepExt op ua.status ub.status := by
    cases op with
    | reservarOp ns nome tel cpf ok pid now =>
        rcases reservarStore_cases s ns nome tel cpf ok pid now with he | ⟨hguard, he⟩
        · rw [show applyOp (Op.reservarOp ns nome tel cpf ok pid now) s =
              reservarStore s ns nome tel cpf ok pid now from rfl, he, hua] at hub
          obtain rfl : ua = ub := by simpa using hub
          exact Or.inl (Or.inl rfl)
        · rw [show applyOp (Op.reservarOp ns nome tel cpf ok pid now) s =
              reservarStore s ns nome tel cpf ok pid now from rfl, he] at hub
          obtain rfl := hrow _ hub
          have hmem : ua ∈ s := by
            obtain ⟨hlt, hget⟩ := List.getElem?_eq_some_iff.1 hua
            exact hget ▸ List.getElem_mem hlt
          by_cases hm : ua.numero ∈ ns
          · rw [reservarRow, if_pos hm]
            exact Or.inl (Or.inr (Or.inl ⟨hguard ua hmem hm, rfl⟩))
          · rw [reservarRow, if_neg hm]
            exact Or.inl (Or.inl rfl)
    | notificarAprovadoRef ref =>
        obtain rfl := hrow (markPaidByRefRow ref) hub
        exact Or.inl (markPaidByRefRow_step ref ua)
    | notificarRecusadoRef ref =>
        obtain rfl := hrow (releaseByRefRow ref) hub
        exact Or.inl (releaseByRefRow_step ref ua)
    | notificarAprovadoPid pid =>
        obtain rfl := hrow (markPaidByPidRow pid) hub
        rcases markPaidByPidRow_step pid ua with hs | ⟨h1, h2p⟩
        · exact Or.inl hs
        · exact Or.inr ⟨h1, h2p, rfl⟩
    | notificarRecusadoPid pid =>
        obtain rfl := hrow (releaseByPidRow pid) hub
        exact Or.inl (releaseByPidRow_step pid ua)
    | adminApprove ref =>
        obtain rfl := hrow (markPaidByRefRow ref) hub
        exact Or.inl (markPaidByRefRow_step ref ua)
    | adminReject ref =>
        obtain rfl := hrow (releaseByRefRow ref) hub
        exact Or.inl (releaseByRefRow_step ref ua)
    | sweepLimpaTudo now =>
        obtain rfl := hrow (limparReservasExpiradasRow now) hub
        exact Or.inl (limparRow_step now ua)
    | sweepKeepRef now =>
        obtain rfl := hrow (limparKeepRefRow now) hub
        exact Or.inl (limparKeepRefRow_step now ua)
  exact ⟨key, fun hp => allowedStepExt_paid key hp⟩

/-- C1 (counterexample): reserving number 1 at time 0, letting the
reference-keeping janitor expire it one hour later (leaving it DISPONIVEL
with its payment_id), and then applying the approved webhook of the
payment_id variant moves the row directly from DISPONIVEL to PAGO in one
operation. -/
theorem claim1_available_to_paid_cex :
    statusOf 1 runS2 = some Status.DISPONIVEL ∧
    applyOp (Op.notificarAprovadoPid 42) runS2 = runS3 ∧
    statusOf 1 runS3 = some Status.PAGO :=
  ⟨by decide, rfl, by decide⟩

/-- The decimal rendering loop behind Nat.repr does not depend on its fuel,
as long as the fuel exceeds the number being rendered. -/
theorem toDigitsCore_fuel (fuel1 : Nat) : ∀ (fuel2 n : Nat) (ds : List Char),
    n < fuel1 → n < fuel2 →
    Nat.toDigitsCore 10 fuel1 n ds = Nat.toDigitsCore 10 fuel2 n ds := by
  induction fuel1 with
  | zero => intro fuel2 n ds h1 _; exact absurd h1 (Nat.not_lt_zero n)
  | succ f1 ih =>
    intro fuel2 n ds h1 h2
    cases fuel2 with
    | zero => exact absurd h2 (Nat.not_lt_zero n)
    | succ f2 =>
      simp only [Nat.toDigitsCore]
      by_cases hdiv : n / 10 = 0
      · rw [if_pos hdiv, if_pos hdiv]
      · rw [if_neg hdiv, if_neg hdiv]
        have hn : 0 < n := by
          rcases Nat.eq_zero_or_pos n with rfl | h
          · exact absurd (by decide : (0 : Nat) / 10 = 0) hdiv
          · exact h
        have hlt : n / 10 < n := Nat.div_lt_self hn (by decide)
        exact ih f2 (n / 10) _ (by omega) (by omega)

/-- The decimal rendering loop only prepends to its accumulator. -/
theorem toDigitsCore_append (fuel : Nat) : ∀ (n : Nat) (ds : List Char), n < fuel →
    Nat.toDigitsCore 10 fuel n ds = Nat.toDigitsCore 10 fuel n [] ++ ds := by
  induction fuel with
  | zero => intro n ds h; exact absurd h (Nat.not_lt_zero n)
  | succ f ih =>
    intro n ds h
    simp only [Nat.toDigitsCore]
    by_cases hdiv : n / 10 = 0
    · rw [if_pos hdiv, if_pos hdiv]; rfl
    · rw [if_neg hdiv, if_neg hdiv]
      have hn : 0 < n := by
        rcases Nat.eq_zero_or_pos n with rfl | h0
        · exact absurd (by decide : (0 : Nat) / 10 = 0) hdiv
        · exact h0
      have hlt : n / 10 < f := by
        have := Nat.div_lt_self hn (by decide : 1 < 10)
        omega
      rw [ih (n / 10) (Nat.digitChar (n % 10) :: ds) hlt,
          ih (n / 10) [Nat.digitChar (n % 10)] hlt]
      simp

/-- A number below ten renders as its single digit character. -/
theorem toDigits_small (n : Nat) (h : n < 10) :
    Nat.toDigits 10 n = [Nat.digitChar n] := by
  rw [Nat.toDigits]
  simp only [Nat.toDigitsCore]
  rw [if_pos (Nat.div_eq_of_lt h), Nat.mod_eq_of_lt h]

/-- A number of at least ten renders as the rendering of its quotient by ten
followed by its last digit. -/
theorem toDigits_step (n : Nat) (h : 10 ≤ n) :
    Nat.toDigits 10 n = Nat.toDigits 10 (n / 10) ++ [Nat.digitChar (n % 10)] := by
  conv_lhs => rw [Nat.toDigits]
  simp only [Nat.toDigitsCore]
  have hdiv : ¬n / 10 = 0 := by
    have h1 : 0 < n / 10 := Nat.div_pos h (by decide)
    omega
  rw [if_neg hdiv]
  have hlt : n / 10 < n := Nat.div_lt_self (by omega) (by decide)
  rw [toDigitsCore_append n (n / 10) [Nat.digitChar (n % 10)] hlt,
      toDigitsCore_fuel n (n / 10 + 1) (n / 10) [] hlt (Nat.lt_succ_self _)]
  rw [Nat.toDigits]

/-- Decimal renderings are never empty. -/
theorem toDigits_ne_nil (n : Nat) : Nat.toDigits 10 n ≠ [] := by
  by_cases h : n < 10
  · rw [toDigits_small n h]; simp
  · rw [toDigits_step n (by omega)]; simp

/-- Digit characters of distinct digits are distinct. -/
theorem digitChar_inj_lt : ∀ a, a < 10 → ∀ b, b < 10 →
    Nat.digitChar a = Nat.digitChar b → a = b := by decide

/-- The decimal rendering of a natural number determines the number. -/
theorem toDigits_inj (n : Nat) : ∀ m : Nat,
    Nat.toDigits 10 n = Nat.toDigits 10 m → n = m := by
  induction n using Nat.strong_induction_on with
  | _ n ih =>
    intro m hm
    by_cases hn : n < 10 <;> by_cases hm10 : m < 10
    · rw [toDigits_small n hn, toDigits_small m hm10] at hm
      exact digitChar_inj_lt n hn m hm10 (by simpa using hm)
    · rw [toDigits_small n hn, toDigits_step m (by omega)] at hm
      have hlen := congrArg List.length hm
      simp at hlen
      exact absurd hlen (toDigits_ne_nil (m / 10))
    · rw [toDigits_step n (by omega), toDigits_small m hm10] at hm
      have hlen := congrArg List.length hm
      simp at hlen
      exact absurd hlen (toDigits_ne_nil _)
    · rw [toDigits_step n (by omega), toDigits_step m (by omega)] at hm
      have h2 := congrArg List.reverse hm
      simp only [List.reverse_append, List.reverse_cons, List.reverse_nil,
        List.nil_append, List.singleton_append, List.cons.injEq] at h2
      obtain ⟨hd, hrev⟩ := h2
      have hmod : n % 10 = m % 10 :=
        digitChar_inj_lt _ (Nat.mod_lt _ (by decide)) _ (Nat.mod_lt _ (by decide)) hd
      have hdivlt : n / 10 < n := Nat.div_lt_self (by omega) (by decide)
      have hdiveq := ih (n / 10) hdivlt (m / 10) (List.reverse_injective hrev)
      have e1 := Nat.div_add_mod n 10
      have e2 := Nat.div_add_mod m 10
      omega

/-- The character data of Nat.repr determines the number. -/
theorem reprNat_data_inj {n m : Nat} (h : (Nat.repr n).data = (Nat.repr m).data) :
    n = m :=
  toDigits_inj n m (by simpa [Nat.repr, List.asString] using h)

/-- C7 (amended): two purchase attempts obtain distinct order references
exactly when their Date.now() readings differ: the reference is
ORDEM-(timestamp), so distinct milliseconds give distinct references, while
attempts in the same millisecond always collide. -/
theorem claim7_reference_unique_iff_distinct_instant (t1 t2 : Nat) :
    genExternalReference t1 = genExternalReference t2 ↔ t1 = t2 := by
  constructor
  · intro h
    have hd := congrArg String.data h
    rw [genExternalReference, genExternalReference, String.data_append,
      String.data_append] at hd
    exact reprNat_data_inj (List.append_cancel_left hd)
  · rintro rfl; rfl

/-- C7 (counterexample): two distinct purchase attempts (different numbers,
buyers and payment ids) processed in the same millisecond are both assigned
the same order reference ORDEM-5, so references are not globally unique. -/
theorem claim7_same_instant_collision :
    okRef (reservar popularNumerosIniciais [1] "Alice" "111" "222" true 42 5) =
      some "ORDEM-5" ∧
    okRef (reservar popularNumerosIniciais [2] "Bob" "333" "444" true 43 5) =
      some "ORDEM-5" :=
  ⟨by decide, by decide⟩

/-- C8 (amended): /reservar answers the 400 validation error exactly when the
numbers list is empty or a buyer field is missing, and such a rejected
request leaves the table unchanged and never reaches the payment provider.
Numbers outside the 1..100 inventory are not rejected by validation. -/
theorem claim8_validation (s : Store) (numeros : List Nat) (nome telefone cpf : String)
    (providerOk : Bool) (pid nowMs : Nat) :
    (reservar s numeros nome telefone cpf providerOk pid nowMs =
        Except.error ReservarErr.validation ↔
      (numeros = [] ∨ nome = "" ∨ telefone = "" ∨ cpf = "")) ∧
    ((numeros = [] ∨ nome = "" ∨ telefone = "" ∨ cpf = "") →
      reservarStore s numeros nome telefone cpf providerOk pid nowMs = s ∧
      reservarPaymentAttempted s numeros nome telefone cpf = false) := by
  refine ⟨⟨?_, ?_⟩, ?_⟩
  · intro h
    by_contra hval
    simp only [reservar, if_neg hval] at h
    split at h
    · simp at h
    · split at h <;> simp at h
  · intro hval
    rw [reservar, if_pos hval]
  · intro hval
    refine ⟨?_, ?_⟩
    · rw [reservarStore, reservar, if_pos hval]
    · rw [reservarPaymentAttempted, if_pos hval]

/-- C8 (counterexample): the request for the out-of-range number 101 passes
validation, reaches the payment provider, and succeeds while changing no row,
instead of being rejected with a validation error as the claim requires. -/
theorem claim8_out_of_range_cex :
    reservar popularNumerosIniciais [101] "Ana" "11988887777" "26188102092" true 7 0 =
      Except.ok ⟨popularNumerosIniciais, "ORDEM-0", 7, 3⟩ ∧
    reservarPaymentAttempted popularNumerosIniciais [101] "Ana" "11988887777"
      "26188102092" = true :=
  ⟨by decide, by decide⟩

/-- Deduplication does not change the unavailable-rows computation, because
the SQL IN test is a membership test. -/
theorem indisponiveisDe_dedup (s : Store) (ns : List Nat) :
    indisponiveisDe s ns.dedup = indisponiveisDe s ns := by
  rw [indisponiveisDe, indisponiveisDe]
  congr 1
  apply List.filter_congr
  intro u _
  simp [List.mem_dedup]

/-- Deduplication does not change the per-row reservation update, because the
WHERE clause is a membership test. -/
theorem reservarRow_dedup (ns : List Nat) (nome tel email cpf ref : String)
    (pid now : Nat) (u : Rifa) :
    reservarRow ns.dedup nome tel email cpf ref pid now u =
      reservarRow ns nome tel email cpf ref pid now u := by
  rw [reservarRow, reservarRow]
  by_cases h : u.numero ∈ ns
  · rw [if_pos (List.mem_dedup.2 h), if_pos h]
  · rw [if_neg (fun hc => h (List.mem_dedup.1 hc)), if_neg h]

/-- C9 (amended): requested numbers are not deduplicated; a request with
duplicates locks the same rows, meets the same conflict outcome and commits
the same table, reference and payment id as the deduplicated request (the
outcomes agree once the amount is erased), but its charged amount is the unit
price times the list length counting duplicates. -/
theorem claim9_dedup (s : Store) (ns : List Nat) (nome tel cpf : String)
    (ok : Bool) (pid now : Nat) :
    reservarSemValor s ns nome tel cpf ok pid now =
      reservarSemValor s ns.dedup nome tel cpf ok pid now ∧
    (∀ r, reservar s ns nome tel cpf ok pid now = Except.ok r →
      r.transaction_amount = VALOR_UNITARIO_RIFA * ns.length) := by
  constructor
  · have hvIff : (ns = [] ∨ nome = "" ∨ tel = "" ∨ cpf = "") ↔
        (ns.dedup = [] ∨ nome = "" ∨ tel = "" ∨ cpf = "") := by
      rw [List.dedup_eq_nil]
    by_cases hv : ns = [] ∨ nome = "" ∨ tel = "" ∨ cpf = ""
    · rw [reservarSemValor, reservarSemValor, reservar, reservar, if_pos hv,
        if_pos (hvIff.1 hv)]
    · rw [reservarSemValor, reservarSemValor]
      simp only [reservar, if_neg hv, if_neg (fun hc => hv (hvIff.2 hc)),
        indisponiveisDe_dedup]
      by_cases hind : indisponiveisDe s ns ≠ []
      · simp only [if_pos hind]
      · simp only [if_neg hind]
        by_cases hok : ok = false
        · rw [if_pos hok, if_pos hok]
        · rw [if_neg hok, if_neg hok]
          have hmap : s.map (reservarRow ns.dedup nome tel EMAIL_FIXO_PAGAMENTO cpf
              (genExternalReference now) pid now) =
            s.map (reservarRow ns nome tel EMAIL_FIXO_PAGAMENTO cpf
              (genExternalReference now) pid now) :=
            List.map_congr_left (fun u _ => reservarRow_dedup ns nome tel
              EMAIL_FIXO_PAGAMENTO cpf (genExternalReference now) pid now u)
          rw [hmap]
  · intro r hr
    simp only [reservar] at hr
    split at hr
    · cases hr
    · split at hr
      · cases hr
      · split at hr
        · cases hr
        · injection hr with hinj
          rw [← hinj]

/-- C10: /minhas-rifas with a nonempty telefone answers 404 exactly when no
row for that telefone is PAGO or RESERVADO, and otherwise returns the
nonempty list of exactly those rows' numbers and statuses, ordered by unit
number. -/
theorem claim10_minhas_rifas (telefone : String) (s : Store) (h : telefone ≠ "") :
    (minhasRifas telefone s = Except.error MinhasRifasErr.notFound ↔
      ¬∃ u ∈ s, u.comprador_telefone = some telefone ∧
        (u.status = Status.PAGO ∨ u.status = Status.RESERVADO)) ∧
    (∀ l, minhasRifas telefone s = Except.ok l →
      l ≠ [] ∧ List.Pairwise (fun a b => a.1 ≤ b.1) l ∧
      ∀ n st, (n, st) ∈ l ↔ ∃ u ∈ s, u.numero = n ∧ u.status = st ∧
        u.comprador_telefone = some telefone ∧
        (st = Status.PAGO ∨ st = Status.RESERVADO)) := by
  have key : ∀ x : Nat × Status,
      x ∈ ((s.filter (fun u => decide (u.comprador_telefone = some telefone ∧
          (u.status = Status.PAGO ∨ u.status = Status.RESERVADO)))).map
          (fun u => (u.numero, u.status))).mergeSort (fun a b => decide (a.1 ≤ b.1)) ↔
      ∃ u ∈ s, u.numero = x.1 ∧ u.status = x.2 ∧
        u.comprador_telefone = some telefone ∧
        (x.2 = Status.PAGO ∨ x.2 = Status.RESERVADO) := by
    intro x
    rw [List.mem_mergeSort, List.mem_map]
    constructor
    · rintro ⟨u, hu, rfl⟩
      rw [List.mem_filter, decide_eq_true_eq] at hu
      exact ⟨u, hu.1, rfl, rfl, hu.2.1, hu.2.2⟩
    · rintro ⟨u, hu, h1, h2, h3, h4⟩
      refine ⟨u, ?_, ?_⟩
      · rw [List.mem_filter, decide_eq_true_eq]
        exact ⟨hu, h3, h2 ▸ h4⟩
      · cases x
        simp_all
  rw [minhasRifas, if_neg h]
  by_cases hnil : ((s.filter (fun u => decide (u.comprador_telefone = some telefone ∧
      (u.status = Status.PAGO ∨ u.status = Status.RESERVADO)))).map
      (fun u => (u.numero, u.status))).mergeSort (fun a b => decide (a.1 ≤ b.1)) = []
  · simp only [if_pos hnil]
    constructor
    · simp only [true_iff, eq_self_iff_true]
      rintro ⟨u, hu, h3, h4⟩
      have : (u.numero, u.status) ∈ ((s.filter (fun u =>
          decide (u.comprador_telefone = some telefone ∧
          (u.status = Status.PAGO ∨ u.status = Status.RESERVADO)))).map
          (fun u => (u.numero, u.status))).mergeSort (fun a b => decide (a.1 ≤ b.1)) :=
        (key (u.numero, u.status)).2 ⟨u, hu, rfl, rfl, h3, h4⟩
      rw [hnil] at this
      exact absurd this (List.not_mem_nil _)
    · intro l hl
      cases hl
  · simp only [if_neg hnil]
    constructor
    · constructor
      · intro hc
        cases hc
      · intro hno
        obtain ⟨x, hx⟩ := List.exists_mem_of_ne_nil _ hnil
        obtain ⟨u, hu, h1, h2, h3, h4⟩ := (key x).1 hx
        exact (hno ⟨u, hu, h3, by rw [h2]; exact h4⟩).elim
    · intro l hl
      injection hl with hl
      subst hl
      refine ⟨hnil, ?_, ?_⟩
      · have hsorted := @List.sorted_mergeSort (Nat × Status)
          (fun a b => decide (a.1 ≤ b.1))
          (by intro a b c hab hbc
              rw [decide_eq_true_eq] at hab hbc ⊢
              omega)
          (by intro a b
              simp only [Bool.or_eq_true, decide_eq_true_eq]
              exact Nat.le_total a.1 b.1)
          ((s.filter (fun u => decide (u.comprador_telefone = some telefone ∧
            (u.status = Status.PAGO ∨ u.status = Status.RESERVADO)))).map
            (fun u => (u.numero, u.status)))
        exact hsorted.imp (fun hab => by
          rw [decide_eq_true_eq] at hab
          exact hab)
      · intro n st
        exact key (n, st)

/-- C9 (counterexample): the request for the duplicated list 7,7 succeeds and
is charged 6 while the request carrying 7 once is charged 3: a request with a
duplicate does not behave identically to the request with the number once. -/
theorem claim9_duplicate_amount_cex :
    okAmount (reservar popularNumerosIniciais [7, 7] "Ana" "11988887777"
      "26188102092" true 9 1) = some 6 ∧
    okAmount (reservar popularNumerosIniciais [7] "Ana" "11988887777"
      "26188102092" true 9 1) = some 3 :=
  ⟨by decide, by decide⟩

/-- Witness for C1 at a concrete input: the admin approval of an unrelated
reference leaves the PAID row PAID. -/
theorem claim1_transition_graph_witness :
    allowedStepExt (Op.adminApprove "ORDEM-99") paidRifa.status paidRifa.status ∧
    (paidRifa.status = Status.PAGO → paidRifa.status = Status.PAGO) :=
  claim1_transition_graph (Op.adminApprove "ORDEM-99") paidStore 0 paidRifa paidRifa
    (by decide) (by decide)

/-- Witness for C2 at a concrete input: re-requesting the already reserved
number 1 conflicts and changes nothing. -/
theorem claim2_reservar_conflict_witness :
    (∃ l, reservar runS1 [1] "Bob" "22" "33" true 8 99 =
        Except.error (ReservarErr.conflict l) ∧
      ∀ n st, (n, st) ∈ l ↔ ∃ u ∈ runS1, u.numero = n ∧ u.status = st ∧
        n ∈ [1] ∧ st ≠ Status.DISPONIVEL) ∧
    reservarStore runS1 [1] "Bob" "22" "33" true 8 99 = runS1 :=
  claim2_reservar_conflict runS1 [1] "Bob" "22" "33" true 8 99 (by decide) (by decide)
    (by decide) (by decide) (by decide)

/-- Witness for C3 at a concrete input: approving order ORDEM-0 on the table
where number 1 is reserved under it. -/
theorem claim3_markPaid_idempotent_witness :
    (∀ u ∈ markPaidByRef "ORDEM-0" runS1, u.external_reference = some "ORDEM-0" →
        u.status = Status.PAGO ∧ u.reservado_em = none) ∧
    markPaidByRef "ORDEM-0" (markPaidByRef "ORDEM-0" runS1) =
      markPaidByRef "ORDEM-0" runS1 ∧
    markPaidByRefRowCount "ORDEM-0" (markPaidByRef "ORDEM-0" runS1) = 0 :=
  claim3_markPaid_idempotent runS1 "ORDEM-0" (by decide)

/-- Witness for C4 at a concrete input: a rejected notification leaves the
one-row PAID table untouched in both webhook variants. -/
theorem claim4_rejection_keeps_paid_witness :
    notificarByRef "rejected" "ORDEM-99" paidStore = paidStore ∧
    notificarByPid "rejected" 5 paidStore = paidStore :=
  ⟨(claim4_rejection_keeps_paid paidStore "ORDEM-99" 5 "rejected" (Or.inl rfl)).1
      (by decide),
   (claim4_rejection_keeps_paid paidStore "ORDEM-99" 5 "rejected" (Or.inl rfl)).2
      (by decide)⟩

/-- Witness for C5 (amended) at a concrete input: the sweeps one hour after
reserving number 1. -/
theorem claim5_sweep_release_fields_witness :
    (limparReservasExpiradas HOUR_MS runS1).get ⟨0, by decide⟩ =
      clearRow (runS1.get ⟨0, by decide⟩) ∧
    (limparReservasExpiradasKeepRef HOUR_MS runS1).get ⟨0, by decide⟩ =
      { runS1.get ⟨0, by decide⟩ with
        status := Status.DISPONIVEL
        comprador_nome := none
        comprador_telefone := none
        comprador_email := none
        comprador_cpf := none
        reservado_em := none } :=
  claim5_sweep_release_fields HOUR_MS runS1 0 (by decide) (by decide) (by decide)
    ⟨by decide, 0, by decide, by decide⟩

/-- Witness for C6 at a concrete input: both sweeps release the one-hour-old
reservation of number 1. -/
theorem claim6_sweep_exactly_expired_witness :
    ((limparReservasExpiradas HOUR_MS runS1).get ⟨0, by decide⟩).status =
      Status.DISPONIVEL ∧
    ((limparReservasExpiradasKeepRef HOUR_MS runS1).get ⟨0, by decide⟩).status =
      Status.DISPONIVEL :=
  (claim6_sweep_exactly_expired HOUR_MS runS1 0 (by decide) (by decide)
    (by decide)).1 ⟨by decide, 0, by decide, by decide⟩

/-- Witness for C8 (amended) at a concrete input: the empty selection is
rejected without touching the table or the provider. -/
theorem claim8_validation_witness :
    reservarStore popularNumerosIniciais [] "Ana" "11" "22" true 3 4 =
      popularNumerosIniciais ∧
    reservarPaymentAttempted popularNumerosIniciais [] "Ana" "11" "22" = false :=
  (claim8_validation popularNumerosIniciais [] "Ana" "11" "22" true 3 4).2
    (Or.inl rfl)

/-- Witness for C9 (amended) at a concrete input: the duplicated request for
7,7 is charged the unit price times two. -/
theorem claim9_dedup_witness :
    (⟨popularNumerosIniciais.map (reservarRow [7, 7] "Ana" "11"
        EMAIL_FIXO_PAGAMENTO "22" (genExternalReference 1) 9 1),
      genExternalReference 1, 9, 6⟩ : ReservarOk).transaction_amount =
      VALOR_UNITARIO_RIFA * ([7, 7] : List Nat).length :=
  (claim9_dedup popularNumerosIniciais [7, 7] "Ana" "11" "22" true 9 1).2 _
    (by decide)

/-- Witness for C10 at a concrete input: querying the phone of the one PAID
row. -/
theorem claim10_minhas_rifas_witness :
    (minhasRifas "11988887777" paidStore = Except.error MinhasRifasErr.notFound ↔
      ¬∃ u ∈ paidStore, u.comprador_telefone = some "11988887777" ∧
        (u.status = Status.PAGO ∨ u.status = Status.RESERVADO)) ∧
    (∀ l, minhasRifas "11988887777" paidStore = Except.ok l →
      l ≠ [] ∧ List.Pairwise (fun a b => a.1 ≤ b.1) l ∧
      ∀ n st, (n, st) ∈ l ↔ ∃ u ∈ paidStore, u.numero = n ∧ u.status = st ∧
        u.comprador_telefone = some "11988887777" ∧
        (st = Status.PAGO ∨ st = Status.RESERVADO)) :=
  claim10_minhas_rifas "11988887777" paidStore (by decide)

end Rifas
